import Mathlib

/-!
Verification of drake/multibody/plant/contact_info.h: the value type
PointPairContactInfo<T>, a record of contact-response data between two
bodies. The embedding translates the header's data members and inline
accessors directly; the constructor body lives in contact_info.cc, which
is not part of the sources, so it is modelled from the spec.
-/

namespace Drake

/-- Strongly typed body index, standing for drake::multibody::BodyIndex,
a TypeSafeIndex wrapping a machine integer. -/
structure BodyIndex where
  val : Int
deriving DecidableEq

/-- Eigen 3-vector of scalars of type T, standing for Vector3<T>. -/
structure Vector3 (T : Type) where
  x : T
  y : T
  z : T
deriving DecidableEq

/-- Strongly typed geometry identifier from the geometry layer. -/
structure GeometryId where
  val : Nat
deriving DecidableEq

/-- Modelled from the spec: drake::geometry::PenetrationAsPointPair<T> is
declared in penetration_as_point_pair.h, which is not among the sources.
Per the spec it is a raw record from the collision-geometry layer holding
the identifiers of the two colliding geometries, witness points, the
contact normal and the penetration depth; it is opaque to
PointPairContactInfo and passed through unchanged. -/
structure PenetrationAsPointPair (T : Type) where
  id_A : GeometryId
  id_B : GeometryId
  p_WCa : Vector3 T
  p_WCb : Vector3 T
  nhat_BA_W : Vector3 T
  depth : T
deriving DecidableEq

/-- The data members of PointPairContactInfo<T>, in declaration order:
the geometric point pair, the two body indices, the contact force f_Bc_W,
the contact point p_WC, the separation speed and the slip speed. -/
structure PointPairContactInfo (T : Type) where
  point_pair_ : PenetrationAsPointPair T
  bodyA_index_ : BodyIndex
  bodyB_index_ : BodyIndex
  f_Bc_W_ : Vector3 T
  p_WC_ : Vector3 T
  separation_speed_ : T
  slip_speed_ : T
deriving DecidableEq

namespace PointPairContactInfo

variable {T : Type}

/-- Modelled from the spec: the constructor
PointPairContactInfo::PointPairContactInfo is only declared in the header;
its definition (contact_info.cc) is not among the sources. Per the spec,
construction is unconditional and side-effect free: it stores each
argument in the corresponding field, performing no validation (the spec
records that distinctness of the body indices and non-negativity of the
slip speed are documented caller-responsibility preconditions, not
enforced checks in the original). -/
def construct (bodyA_index bodyB_index : BodyIndex) (f_Bc_W p_WC : Vector3 T)
    (separation_speed slip_speed : T)
    (point_pair : PenetrationAsPointPair T) : PointPairContactInfo T :=
  { point_pair_ := point_pair
    bodyA_index_ := bodyA_index
    bodyB_index_ := bodyB_index
    f_Bc_W_ := f_Bc_W
    p_WC_ := p_WC
    separation_speed_ := separation_speed
    slip_speed_ := slip_speed }

/-- Returns the index of body A in the contact pair. -/
def bodyA_index (c : PointPairContactInfo T) : BodyIndex :=
  c.bodyA_index_

/-- Returns the index of body B in the contact pair. -/
def bodyB_index (c : PointPairContactInfo T) : BodyIndex :=
  c.bodyB_index_

/-- Returns the contact force f_Bc_W on B at contact point C expressed in
the world frame W. -/
def contact_force (c : PointPairContactInfo T) : Vector3 T :=
  c.f_Bc_W_

/-- Returns the position p_WC of the contact point C in the world frame W. -/
def contact_point (c : PointPairContactInfo T) : Vector3 T :=
  c.p_WC_

/-- Returns the slip speed between body A and B at contact point C. -/
def slip_speed (c : PointPairContactInfo T) : T :=
  c.slip_speed_

/-- Returns the separation speed between body A and B along the normal
direction at the contact point. -/
def separation_speed (c : PointPairContactInfo T) : T :=
  c.separation_speed_

/-- Returns the additional geometric-query information for this pair. -/
def point_pair (c : PointPairContactInfo T) : PenetrationAsPointPair T :=
  c.point_pair_

/-- A call of the const member bodyA_index, modelled with explicit state
passing: the returned value together with the object after the call. -/
def bodyA_index_call (c : PointPairContactInfo T) :
    BodyIndex × PointPairContactInfo T :=
  (c.bodyA_index, c)

/-- A call of the const member bodyB_index, with explicit state passing. -/
def bodyB_index_call (c : PointPairContactInfo T) :
    BodyIndex × PointPairContactInfo T :=
  (c.bodyB_index, c)

/-- A call of the const member contact_force, with explicit state passing. -/
def contact_force_call (c : PointPairContactInfo T) :
    Vector3 T × PointPairContactInfo T :=
  (c.contact_force, c)

/-- A call of the const member contact_point, with explicit state passing. -/
def contact_point_call (c : PointPairContactInfo T) :
    Vector3 T × PointPairContactInfo T :=
  (c.contact_point, c)

/-- A call of the const member slip_speed, with explicit state passing. -/
def slip_speed_call (c : PointPairContactInfo T) :
    T × PointPairContactInfo T :=
  (c.slip_speed, c)

/-- A call of the const member separation_speed, with explicit state
passing. -/
def separation_speed_call (c : PointPairContactInfo T) :
    T × PointPairContactInfo T :=
  (c.separation_speed, c)

/-- A call of the const member point_pair, with explicit state passing. -/
def point_pair_call (c : PointPairContactInfo T) :
    PenetrationAsPointPair T × PointPairContactInfo T :=
  (c.point_pair, c)

/-- The copy constructor generated by
DRAKE_DEFAULT_COPY_AND_MOVE_AND_ASSIGN: a memberwise copy of every data
member. -/
def copy (c : PointPairContactInfo T) : PointPairContactInfo T :=
  { point_pair_ := c.point_pair_
    bodyA_index_ := c.bodyA_index_
    bodyB_index_ := c.bodyB_index_
    f_Bc_W_ := c.f_Bc_W_
    p_WC_ := c.p_WC_
    separation_speed_ := c.separation_speed_
    slip_speed_ := c.slip_speed_ }

/-- The copy-assignment operator generated by
DRAKE_DEFAULT_COPY_AND_MOVE_AND_ASSIGN: after self = other, every data
member of self holds the corresponding member of other. -/
def assign (_self other : PointPairContactInfo T) : PointPairContactInfo T :=
  { point_pair_ := other.point_pair_
    bodyA_index_ := other.bodyA_index_
    bodyB_index_ := other.bodyB_index_
    f_Bc_W_ := other.f_Bc_W_
    p_WC_ := other.p_WC_
    separation_speed_ := other.separation_speed_
    slip_speed_ := other.slip_speed_ }

end PointPairContactInfo

/-- An autodiff-capable scalar over the base type R: a value together with
its derivative with respect to one seed, standing for AutoDiffXd with a
single derivative coordinate. -/
structure AutoDiffXd (R : Type) where
  value : R
  deriv : R
deriving DecidableEq

/-- Componentwise application of a scalar map to a 3-vector. -/
def Vector3.map {S T : Type} (g : S → T) (v : Vector3 S) : Vector3 T :=
  { x := g v.x, y := g v.y, z := g v.z }

/-- Application of a scalar map to every scalar of a point-pair record,
leaving the geometry identifiers untouched. -/
def PenetrationAsPointPair.map {S T : Type} (g : S → T)
    (q : PenetrationAsPointPair S) : PenetrationAsPointPair T :=
  { id_A := q.id_A
    id_B := q.id_B
    p_WCa := q.p_WCa.map g
    p_WCb := q.p_WCb.map g
    nhat_BA_W := q.nhat_BA_W.map g
    depth := g q.depth }

/-- A sample zero 3-vector over the integers, for concrete instances. -/
def zero3 : Vector3 Int :=
  { x := 0, y := 0, z := 0 }

/-- A sample point-pair record over the integers, for concrete instances. -/
def samplePP : PenetrationAsPointPair Int :=
  { id_A := { val := 10 }
    id_B := { val := 11 }
    p_WCa := zero3
    p_WCb := zero3
    nhat_BA_W := { x := 0, y := 0, z := 1 }
    depth := 1 }

/-- A sample contact-info instance over the integers. -/
def sampleInfo : PointPairContactInfo Int :=
  PointPairContactInfo.construct { val := 0 } { val := 1 } zero3 zero3
    (-2) 3 samplePP

/-- A second, independently constructed instance with the same field
values as sampleInfo. -/
def sampleInfo2 : PointPairContactInfo Int :=
  PointPairContactInfo.construct { val := 0 } { val := 1 } zero3 zero3
    (-2) 3 samplePP

open PointPairContactInfo

/-- C1: round-trip of construction and accessors: for every pair of body
indices a and b, force vector f, point vector p, separation speed s, slip
speed v and point-pair record q, the instance constructed from these
satisfies bodyA_index = a, bodyB_index = b, contact_force = f,
contact_point = p, separation_speed = s, slip_speed = v and
point_pair = q, the point-pair record passed through unchanged. -/
theorem C1_construct_accessor_roundtrip {T : Type} (a b : BodyIndex)
    (f p : Vector3 T) (s v : T) (q : PenetrationAsPointPair T) :
    (construct a b f p s v q).bodyA_index = a ∧
    (construct a b f p s v q).bodyB_index = b ∧
    (construct a b f p s v q).contact_force = f ∧
    (construct a b f p s v q).contact_point = p ∧
    (construct a b f p s v q).separation_speed = s ∧
    (construct a b f p s v q).slip_speed = v ∧
    (construct a b f p s v q).point_pair = q :=
  ⟨rfl, rfl, rfl, rfl, rfl, rfl, rfl⟩

/-- C2: immutability: every accessor call, modelled with explicit state
passing, leaves the instance unchanged, and a repeated call on the
resulting instance returns the same value as the first call, for each of
the seven accessors. -/
theorem C2_accessors_do_not_mutate {T : Type} (c : PointPairContactInfo T) :
    ((c.bodyA_index_call).2 = c ∧
      (((c.bodyA_index_call).2).bodyA_index_call).1 = (c.bodyA_index_call).1) ∧
    ((c.bodyB_index_call).2 = c ∧
      (((c.bodyB_index_call).2).bodyB_index_call).1 = (c.bodyB_index_call).1) ∧
    ((c.contact_force_call).2 = c ∧
      (((c.contact_force_call).2).contact_force_call).1 =
        (c.contact_force_call).1) ∧
    ((c.contact_point_call).2 = c ∧
      (((c.contact_point_call).2).contact_point_call).1 =
        (c.contact_point_call).1) ∧
    ((c.separation_speed_call).2 = c ∧
      (((c.separation_speed_call).2).separation_speed_call).1 =
        (c.separation_speed_call).1) ∧
    ((c.slip_speed_call).2 = c ∧
      (((c.slip_speed_call).2).slip_speed_call).1 = (c.slip_speed_call).1) ∧
    ((c.point_pair_call).2 = c ∧
      (((c.point_pair_call).2).point_pair_call).1 = (c.point_pair_call).1) :=
  ⟨⟨rfl, rfl⟩, ⟨rfl, rfl⟩, ⟨rfl, rfl⟩, ⟨rfl, rfl⟩, ⟨rfl, rfl⟩, ⟨rfl, rfl⟩,
    ⟨rfl, rfl⟩⟩

/-- C3 counterexample: constructing with equal body indices does not
raise any error: at the concrete input with both indices equal to 1 the
construction succeeds and yields the fully populated instance, so no
InvalidArgument failure path exists. -/
theorem C3_counterexample :
    construct { val := 1 } { val := 1 } zero3 zero3 0 0 samplePP =
      { point_pair_ := samplePP
        bodyA_index_ := { val := 1 }
        bodyB_index_ := { val := 1 }
        f_Bc_W_ := zero3
        p_WC_ := zero3
        separation_speed_ := 0
        slip_speed_ := 0 } :=
  rfl

/-- C3 amended: constructing with equal body indices raises no error and
produces a fully populated instance whose accessors return exactly the
arguments; distinctness of the indices is a documented
caller-responsibility precondition, not an enforced check. -/
theorem C3_amended_no_error_on_equal_indices {T : Type} (a : BodyIndex)
    (f p : Vector3 T) (s v : T) (q : PenetrationAsPointPair T) :
    (construct a a f p s v q).bodyA_index = a ∧
    (construct a a f p s v q).bodyB_index = a ∧
    (construct a a f p s v q).contact_force = f ∧
    (construct a a f p s v q).contact_point = p ∧
    (construct a a f p s v q).separation_speed = s ∧
    (construct a a f p s v q).slip_speed = v ∧
    (construct a a f p s v q).point_pair = q :=
  ⟨rfl, rfl, rfl, rfl, rfl, rfl, rfl⟩

/-- C4: unconditional, side-effect-free construction: for every input
tuple, including tuples with equal body indices or a negative slip speed,
construction succeeds and equals the fully populated record holding
exactly the seven arguments; there is no failure path and no
partial-construction state. -/
theorem C4_construction_total {T : Type} (a b : BodyIndex)
    (f p : Vector3 T) (s v : T) (q : PenetrationAsPointPair T) :
    construct a b f p s v q =
      { point_pair_ := q
        bodyA_index_ := a
        bodyB_index_ := b
        f_Bc_W_ := f
        p_WC_ := p
        separation_speed_ := s
        slip_speed_ := v } :=
  rfl

/-- C5 counterexample: it is not true that every PointPairContactInfo
instance has distinct body indices: the instance constructed with both
indices equal to 2 violates it. -/
theorem C5_counterexample :
    ¬ (∀ c : PointPairContactInfo Int, c.bodyA_index ≠ c.bodyB_index) :=
  fun h =>
    h (construct { val := 2 } { val := 2 } zero3 zero3 0 0 samplePP) rfl

/-- C5 amended: every instance constructed with distinct body indices, as
the documented precondition requires, satisfies
bodyA_index ≠ bodyB_index. -/
theorem C5_distinct_bodies_under_precondition {T : Type} (a b : BodyIndex)
    (f p : Vector3 T) (s v : T) (q : PenetrationAsPointPair T)
    (h : a ≠ b) :
    (construct a b f p s v q).bodyA_index ≠
      (construct a b f p s v q).bodyB_index :=
  h

/-- C5 witness: the amended distinctness theorem applied at the concrete
instance with indices 0 and 1. -/
theorem C5_distinct_bodies_witness :
    ({ val := 0 } : BodyIndex) ≠ { val := 1 } ∧
    (construct { val := 0 } { val := 1 } zero3 zero3 0 0
        samplePP).bodyA_index ≠
      (construct { val := 0 } { val := 1 } zero3 zero3 0 0
        samplePP).bodyB_index :=
  ⟨by decide,
    C5_distinct_bodies_under_precondition { val := 0 } { val := 1 } zero3
      zero3 0 0 samplePP (by decide)⟩

/-- C6: non-negative slip speed: every instance constructed with a
slip-speed argument at least 0 satisfies slip_speed ≥ 0. -/
theorem C6_slip_speed_nonneg {T : Type} [Zero T] [LE T] (a b : BodyIndex)
    (f p : Vector3 T) (s v : T) (q : PenetrationAsPointPair T)
    (h : 0 ≤ v) :
    0 ≤ (construct a b f p s v q).slip_speed :=
  h

/-- C6 witness: the non-negative slip-speed theorem applied at the
concrete integer instance with slip speed 3. -/
theorem C6_slip_speed_witness :
    (0 : Int) ≤ 3 ∧
    (0 : Int) ≤ (construct { val := 0 } { val := 1 } zero3 zero3 (-2) 3
      samplePP).slip_speed :=
  ⟨by decide,
    C6_slip_speed_nonneg { val := 0 } { val := 1 } zero3 zero3 (-2) 3
      samplePP (by decide)⟩

/-- C7: accessors are pure field projections: each of the seven accessors
returns the stored field directly, performing no computation. -/
theorem C7_accessors_are_projections {T : Type}
    (c : PointPairContactInfo T) :
    c.bodyA_index = c.bodyA_index_ ∧
    c.bodyB_index = c.bodyB_index_ ∧
    c.contact_force = c.f_Bc_W_ ∧
    c.contact_point = c.p_WC_ ∧
    c.separation_speed = c.separation_speed_ ∧
    c.slip_speed = c.slip_speed_ ∧
    c.point_pair = c.point_pair_ :=
  ⟨rfl, rfl, rfl, rfl, rfl, rfl, rfl⟩

/-- C8: copy equality: the memberwise copy of an instance equals the
original, and two instances agreeing on all seven accessors are equal as
values. -/
theorem C8_copy_and_value_equality {T : Type}
    (c d : PointPairContactInfo T) :
    copy c = c ∧
    (c.bodyA_index = d.bodyA_index → c.bodyB_index = d.bodyB_index →
      c.contact_force = d.contact_force →
      c.contact_point = d.contact_point →
      c.separation_speed = d.separation_speed →
      c.slip_speed = d.slip_speed → c.point_pair = d.point_pair →
      c = d) := by
  refine ⟨rfl, fun h1 h2 h3 h4 h5 h6 h7 => ?_⟩
  cases c
  cases d
  simp only [bodyA_index, bodyB_index, contact_force, contact_point,
    separation_speed, slip_speed, point_pair] at h1 h2 h3 h4 h5 h6 h7
  subst h1 h2 h3 h4 h5 h6 h7
  rfl

/-- C8 witness: copy equality applied to the concrete sample instance,
and value equality of two independently constructed instances with
identical field values. -/
theorem C8_copy_witness :
    copy sampleInfo = sampleInfo ∧ sampleInfo = sampleInfo2 :=
  ⟨(C8_copy_and_value_equality sampleInfo sampleInfo).1,
    (C8_copy_and_value_equality sampleInfo sampleInfo2).2 rfl rfl rfl rfl
      rfl rfl rfl⟩

/-- C9: scalar-type genericity as a refinement: the construction and
accessor sequence run with the autodiff scalar instantiation yields
results whose value components equal, field for field, the plain
instantiation run on the value components of the same inputs. -/
theorem C9_autodiff_value_refinement {R : Type} (a b : BodyIndex)
    (f p : Vector3 (AutoDiffXd R)) (s v : AutoDiffXd R)
    (q : PenetrationAsPointPair (AutoDiffXd R)) :
    (construct a b f p s v q).bodyA_index =
      (construct a b (f.map AutoDiffXd.value) (p.map AutoDiffXd.value)
        s.value v.value (q.map AutoDiffXd.value)).bodyA_index ∧
    (construct a b f p s v q).bodyB_index =
      (construct a b (f.map AutoDiffXd.value) (p.map AutoDiffXd.value)
        s.value v.value (q.map AutoDiffXd.value)).bodyB_index ∧
    ((construct a b f p s v q).contact_force).map AutoDiffXd.value =
      (construct a b (f.map AutoDiffXd.value) (p.map AutoDiffXd.value)
        s.value v.value (q.map AutoDiffXd.value)).contact_force ∧
    ((construct a b f p s v q).contact_point).map AutoDiffXd.value =
      (construct a b (f.map AutoDiffXd.value) (p.map AutoDiffXd.value)
        s.value v.value (q.map AutoDiffXd.value)).contact_point ∧
    ((construct a b f p s v q).separation_speed).value =
      (construct a b (f.map AutoDiffXd.value) (p.map AutoDiffXd.value)
        s.value v.value (q.map AutoDiffXd.value)).separation_speed ∧
    ((construct a b f p s v q).slip_speed).value =
      (construct a b (f.map AutoDiffXd.value) (p.map AutoDiffXd.value)
        s.value v.value (q.map AutoDiffXd.value)).slip_speed ∧
    ((construct a b f p s v q).point_pair).map AutoDiffXd.value =
      (construct a b (f.map AutoDiffXd.value) (p.map AutoDiffXd.value)
        s.value v.value (q.map AutoDiffXd.value)).point_pair :=
  ⟨rfl, rfl, rfl, rfl, rfl, rfl, rfl⟩

/-- C10: assignment replaces every field: after assigning instance b to
instance a, every accessor of the result returns the corresponding field
of b, and the result equals b outright, so no field of a retains its
prior value. -/
theorem C10_assignment_replaces_all_fields {T : Type}
    (a b : PointPairContactInfo T) :
    (assign a b).bodyA_index = b.bodyA_index ∧
    (assign a b).bodyB_index = b.bodyB_index ∧
    (assign a b).contact_force = b.contact_force ∧
    (assign a b).contact_point = b.contact_point ∧
    (assign a b).separation_speed = b.separation_speed ∧
    (assign a b).slip_speed = b.slip_speed ∧
    (assign a b).point_pair = b.point_pair ∧
    assign a b = b :=
  ⟨rfl, rfl, rfl, rfl, rfl, rfl, rfl, rfl⟩

end Drake
